import Mathlib

/-!
Verification of the Heatworks ceiling-heating layout engine.

The definitions below are a shallow embedding of the geometry/layout/routing
engine of the repository:

* `src/utils/GridCalculator.ts` (profile grid, heat plates, quantization) is
  embedded over `ℚ` — its arithmetic is +, -, *, /, `Math.floor`, `Math.min`,
  `Math.max`, all exact over the rationals;
* `src/utils/PipeRouter.ts` (circuit routing and turn geometry) is embedded
  over `ℝ` because it uses `Math.sqrt` (Euclidean distances) and `Math.PI`
  (arc lengths).

JavaScript numbers are modelled by exact arithmetic; `Array.prototype.sort`
with a numeric comparator is modelled by insertion sort (a sort by the same
key); SVG path-data strings are modelled as lists of path commands (string
concatenation becomes list append).  Display-only `id` strings are kept and
assigned from the running element count exactly as in the source.
-/

namespace Heatworks

/-- `Orientation` from `src/types/index.ts`: `'Vertical' | 'Horizontal'`. -/
inductive Orientation where
  | Vertical
  | Horizontal
deriving DecidableEq, Repr

/-- `SystemType` from `src/types/index.ts`: `'System 4' | 'System 6'`. -/
inductive SystemType where
  | System4
  | System6
deriving DecidableEq, Repr

/-- `ConnectionSide` from `src/types/index.ts`: `'top' | 'bottom' | 'left' | 'right'`. -/
inductive ConnectionSide where
  | top
  | bottom
  | left
  | right
deriving DecidableEq, Repr

/-- `Point` interface (`{x, y}`), parametrised by the number type. -/
structure Pt (α : Type) where
  x : α
  y : α
deriving DecidableEq, Repr

/-- `CDProfile` interface from `src/types/index.ts`. -/
structure CDProfile (α : Type) where
  id : String
  x1 : α
  y1 : α
  x2 : α
  y2 : α
  width : α
  orientation : Orientation
deriving DecidableEq, Repr

/-- `HeatPlate` interface from `src/types/index.ts`. -/
structure HeatPlate (α : Type) where
  id : String
  x1 : α
  y1 : α
  x2 : α
  y2 : α
  width : α
  orientation : Orientation
deriving DecidableEq, Repr

/-- `PatternCalibration` record from `src/types/index.ts` (all mm scalars). -/
structure PatternCalibration where
  rightSideMirrorOffset : ℚ
  induloOffsetY : ℚ
  svgInternalPaddingX : ℚ
  effectivePipeWidth : ℚ
  visualPipeLength : ℚ
  atforduloOffsetX : ℚ
  atforduloOffsetY : ℚ
  vegeOffsetX : ℚ
  vegeOffsetY : ℚ
deriving DecidableEq, Repr

/-- `GlobalSettings` record from `src/types/index.ts`: the tunable millimetre
constants held by the settings store (`useStore.ts`). -/
structure GlobalSettings where
  cdProfileWidth : ℚ
  cdProfileSpacing : ℚ
  wallBuffer : ℚ
  gridMargin : ℚ
  plateWidth : ℚ
  system4Gap : ℚ
  system6Gap : ℚ
  visualOffset : ℚ
  startPipeLength : ℚ
  calibration : PatternCalibration
deriving DecidableEq, Repr

/-- The fields of the `Room` interface read by the layout engine
(`points`, `systemType`, `orientation`, `connectionSide`).  The remaining
fields of `Room` (id, name, and the derived outputs `cdProfiles`,
`heatPlates`, `area`, statistics, `heatingCircuits`) are metadata or
already-computed outputs and are never read by the generators. -/
structure Room where
  points : List (Pt ℚ)
  systemType : SystemType
  orientation : Orientation
  connectionSide : ConnectionSide
deriving DecidableEq, Repr

/-- `BoundingBox` interface from `GridCalculator.ts`. -/
structure BoundingBox where
  minX : ℚ
  maxX : ℚ
  minY : ℚ
  maxY : ℚ
  width : ℚ
  height : ℚ
deriving DecidableEq, Repr

/-- `Math.min(...xs)` over a list.  The engine only calls it on polygons with
at least 3 points, so the (unreachable) empty case is mapped to `0` rather
than JavaScript's `+Infinity`. -/
def listMin : List ℚ → ℚ
  | [] => 0
  | x :: xs => xs.foldl min x

/-- `Math.max(...xs)` over a list (empty case unreachable, mapped to `0`). -/
def listMax : List ℚ → ℚ
  | [] => 0
  | x :: xs => xs.foldl max x

/-- The `GridCalculator` class: its only constructor-set field is
`pxPerMeter` (all other class fields are hard-coded constants). -/
structure GridCalculator where
  pxPerMeter : ℚ
deriving DecidableEq, Repr

namespace GridCalculator

/-- `CD_PROFILE_WIDTH_MM = 60`. -/
def CD_PROFILE_WIDTH_MM : ℚ := 60

/-- `CD_PROFILE_SPACING_MM = 400`. -/
def CD_PROFILE_SPACING_MM : ℚ := 400

/-- `WALL_BUFFER_MM = 250`. -/
def WALL_BUFFER_MM : ℚ := 250

/-- `LENGTH_STEP_MM = 100`. -/
def LENGTH_STEP_MM : ℚ := 100

/-- `GRID_MARGIN_MM = 100`. -/
def GRID_MARGIN_MM : ℚ := 100

/-- `MIN_PROFILE_LENGTH_MM = 1000`. -/
def MIN_PROFILE_LENGTH_MM : ℚ := 1000

/-- The store (`useStore.ts`) constructs the calculator as
`new GridCalculator(pxPerMeter, settings)`.  The class constructor declares a
single parameter, so the second argument is discarded (JavaScript call
semantics); only `pxPerMeter` is stored. -/
def fromStore (pxPerMeter : ℚ) (_settings : GlobalSettings) : GridCalculator :=
  ⟨pxPerMeter⟩

/-- `mmToPx(mm) = (mm / 1000) * pxPerMeter`. -/
def mmToPx (c : GridCalculator) (mm : ℚ) : ℚ :=
  mm / 1000 * c.pxPerMeter

/-- `calculatePolygonArea`: shoelace sum, absolute value halved, divided by
`pxPerMeter²`. -/
def calculatePolygonArea (c : GridCalculator) (points : List (Pt ℚ)) : ℚ :=
  if points.length < 3 then 0
  else
    let pairs := points.zip (points.rotate 1)
    let a := pairs.foldl (fun acc e => acc + e.1.x * e.2.y - e.2.x * e.1.y) 0
    |a| / 2 / (c.pxPerMeter * c.pxPerMeter)

/-- `quantizeLength(lengthMM) = Math.floor(lengthMM / LENGTH_STEP_MM) * LENGTH_STEP_MM`. -/
def quantizeLength (lengthMM : ℚ) : ℚ :=
  (⌊lengthMM / LENGTH_STEP_MM⌋ : ℚ) * LENGTH_STEP_MM

/-- `getBoundingBox(points)`. -/
def getBoundingBox (points : List (Pt ℚ)) : BoundingBox :=
  let xs := points.map (·.x)
  let ys := points.map (·.y)
  { minX := listMin xs
    maxX := listMax xs
    minY := listMin ys
    maxY := listMax ys
    width := listMax xs - listMin xs
    height := listMax ys - listMin ys }

/-- `lineIntersection(x1,y1,x2,y2,x3,y3,x4,y4)`: parametric line–line
intersection with the `0.0001` near-parallel denominator epsilon; `null`
becomes `none`. -/
def lineIntersection (x1 y1 x2 y2 x3 y3 x4 y4 : ℚ) : Option (Pt ℚ) :=
  let denom := (x1 - x2) * (y3 - y4) - (y1 - y2) * (x3 - x4)
  if |denom| < 0.0001 then none
  else
    let t := ((x1 - x3) * (y3 - y4) - (y1 - y3) * (x3 - x4)) / denom
    let u := -((x1 - x2) * (y1 - y3) - (y1 - y2) * (x1 - x3)) / denom
    if 0 ≤ t ∧ t ≤ 1 ∧ 0 ≤ u ∧ u ≤ 1 then
      some ⟨x1 + t * (x2 - x1), y1 + t * (y2 - y1)⟩
    else none

/-- The polygon edge list: each vertex paired with its cyclic successor
(`polygon[i]`, `polygon[(i+1) % n]`). -/
def polygonEdges (polygon : List (Pt ℚ)) : List (Pt ℚ × Pt ℚ) :=
  polygon.zip (polygon.rotate 1)

/-- `castVerticalRay(x, polygon)`: intersection `y`s of the vertical ray at
`x` (from `-1e9` to `1e9`) with every polygon edge, sorted ascending. -/
def castVerticalRay (x : ℚ) (polygon : List (Pt ℚ)) : List ℚ :=
  let inters := (polygonEdges polygon).filterMap fun e =>
    (lineIntersection x (-(10 ^ 9)) x (10 ^ 9) e.1.x e.1.y e.2.x e.2.y).map (·.y)
  inters.insertionSort (· ≤ ·)

/-- `castHorizontalRay(y, polygon)`: intersection `x`s of the horizontal ray
at `y`, sorted ascending. -/
def castHorizontalRay (y : ℚ) (polygon : List (Pt ℚ)) : List ℚ :=
  let inters := (polygonEdges polygon).filterMap fun e =>
    (lineIntersection (-(10 ^ 9)) y (10 ^ 9) y e.1.x e.1.y e.2.x e.2.y).map (·.x)
  inters.insertionSort (· ≤ ·)

/-- The room extent perpendicular to the profile direction, in pixels
(`bbox.maxX - bbox.minX` for `Vertical`, `bbox.maxY - bbox.minY` for
`Horizontal`). -/
def roomExtentPx (points : List (Pt ℚ)) (o : Orientation) : ℚ :=
  let b := getBoundingBox points
  if o = .Vertical then b.maxX - b.minX else b.maxY - b.minY

/-- `profileCount = Math.floor(usableWidthMM / CD_PROFILE_SPACING_MM) + 1`
where `usableWidthMM = roomWidthMM - 2 * GRID_MARGIN_MM`. -/
def profileCandidateCount (c : GridCalculator) (points : List (Pt ℚ)) (o : Orientation) : ℤ :=
  let extentMM := roomExtentPx points o / c.pxPerMeter * 1000
  let usableMM := extentMM - 2 * GRID_MARGIN_MM
  ⌊usableMM / CD_PROFILE_SPACING_MM⌋ + 1

/-- `startOffsetPx = (roomWidth - totalGridSpanPx) / 2` with
`totalGridSpanPx = mmToPx((profileCount - 1) * CD_PROFILE_SPACING_MM)`. -/
def profileStartOffsetPx (c : GridCalculator) (points : List (Pt ℚ)) (o : Orientation) : ℚ :=
  let count := profileCandidateCount c points o
  (roomExtentPx points o - c.mmToPx (((count : ℚ) - 1) * CD_PROFILE_SPACING_MM)) / 2

/-- The candidate profile axis coordinates attempted by the placement loop:
`bbox.min + startOffsetPx + i * spacing` for `i = 0 .. profileCount - 1`. -/
def profileCandidatePositions (c : GridCalculator) (points : List (Pt ℚ)) (o : Orientation) :
    List ℚ :=
  let b := getBoundingBox points
  let base := if o = .Vertical then b.minX else b.minY
  let count := profileCandidateCount c points o
  (List.range count.toNat).map fun (i : ℕ) =>
    base + profileStartOffsetPx c points o + (i : ℚ) * c.mmToPx CD_PROFILE_SPACING_MM

/-- One iteration of the vertical placement loop of `generateCDProfiles`
(`GridCalculator.ts` lines 223-306) at candidate axis `currentX`:
double-ray edge check, tightest interval, wall buffer, quantization,
bottom-anchored placement, minimum-length filter.  `none` models `continue`
(a skipped candidate); the `id` is assigned afterwards from the running
count. -/
def profileCandidateV (c : GridCalculator) (points : List (Pt ℚ)) (currentX : ℚ) :
    Option (CDProfile ℚ) :=
  let profileWidth := c.mmToPx CD_PROFILE_WIDTH_MM
  let bufferPx := c.mmToPx WALL_BUFFER_MM
  let halfWidth := profileWidth / 2
  let intersectionsLeft := castVerticalRay (currentX - halfWidth) points
  let intersectionsRight := castVerticalRay (currentX + halfWidth) points
  if intersectionsLeft.length < 2 ∨ intersectionsRight.length < 2 then none
  else
    let topLimit := max (intersectionsLeft.getD 0 0) (intersectionsRight.getD 0 0)
    let bottomLimit := min (intersectionsLeft.getD 1 0) (intersectionsRight.getD 1 0)
    let rawLengthPx := bottomLimit - topLimit
    if rawLengthPx < 0 then none
    else
      let maxPossibleLengthPx := rawLengthPx - 2 * bufferPx
      let maxPossibleLengthMM := maxPossibleLengthPx / c.pxPerMeter * 1000
      if maxPossibleLengthMM < 100 then none
      else
        let steppedLengthMM := quantizeLength maxPossibleLengthMM
        let steppedLengthPx := c.mmToPx steppedLengthMM
        let finalYEnd := bottomLimit - bufferPx
        let finalYStart := finalYEnd - steppedLengthPx
        if MIN_PROFILE_LENGTH_MM ≤ steppedLengthMM then
          some { id := ""
                 x1 := currentX - profileWidth / 2
                 y1 := finalYStart
                 x2 := currentX - profileWidth / 2
                 y2 := finalYEnd
                 width := profileWidth
                 orientation := .Vertical }
        else none

/-- One iteration of the horizontal placement loop of `generateCDProfiles`
(`GridCalculator.ts` lines 343-426) at candidate axis `currentY`
(left-anchored placement). -/
def profileCandidateH (c : GridCalculator) (points : List (Pt ℚ)) (currentY : ℚ) :
    Option (CDProfile ℚ) :=
  let profileWidth := c.mmToPx CD_PROFILE_WIDTH_MM
  let bufferPx := c.mmToPx WALL_BUFFER_MM
  let halfWidth := profileWidth / 2
  let intersectionsTop := castHorizontalRay (currentY - halfWidth) points
  let intersectionsBottom := castHorizontalRay (currentY + halfWidth) points
  if intersectionsTop.length < 2 ∨ intersectionsBottom.length < 2 then none
  else
    let leftLimit := max (intersectionsTop.getD 0 0) (intersectionsBottom.getD 0 0)
    let rightLimit := min (intersectionsTop.getD 1 0) (intersectionsBottom.getD 1 0)
    let rawLengthPx := rightLimit - leftLimit
    if rawLengthPx < 0 then none
    else
      let maxPossibleLengthPx := rawLengthPx - 2 * bufferPx
      let maxPossibleLengthMM := maxPossibleLengthPx / c.pxPerMeter * 1000
      if maxPossibleLengthMM < 100 then none
      else
        let steppedLengthMM := quantizeLength maxPossibleLengthMM
        let steppedLengthPx := c.mmToPx steppedLengthMM
        let finalXStart := leftLimit + bufferPx
        let finalXEnd := finalXStart + steppedLengthPx
        if MIN_PROFILE_LENGTH_MM ≤ steppedLengthMM then
          some { id := ""
                 x1 := finalXStart
                 y1 := currentY - profileWidth / 2
                 x2 := finalXEnd
                 y2 := currentY - profileWidth / 2
                 width := profileWidth
                 orientation := .Horizontal }
        else none

/-- Assign ids `tag ++ runningIndex`: the source pushes
`profile-v-${profiles.length}` (resp. `-h-`), i.e. each emitted profile is
numbered by its index in the output list. -/
def withProfileIds (tag : String) (l : List (CDProfile ℚ)) : List (CDProfile ℚ) :=
  l.enum.map fun e => { e.2 with id := tag ++ toString e.1 }

/-- `generateCDProfiles(room)`: centered grid of candidate positions, each
validated by the double-ray edge check; returns `[]` when
`profileCount < 1`. -/
def generateCDProfiles (c : GridCalculator) (room : Room) : List (CDProfile ℚ) :=
  match room.orientation with
  | .Vertical =>
    if profileCandidateCount c room.points .Vertical < 1 then []
    else
      withProfileIds "profile-v-"
        ((profileCandidatePositions c room.points .Vertical).filterMap
          (profileCandidateV c room.points))
  | .Horizontal =>
    if profileCandidateCount c room.points .Horizontal < 1 then []
    else
      withProfileIds "profile-h-"
        ((profileCandidatePositions c room.points .Horizontal).filterMap
          (profileCandidateH c room.points))

/-- `BROWN_PLATE_WIDTH_MM = 50` (local constant of `generateHeatPlates`). -/
def BROWN_PLATE_WIDTH_MM : ℚ := 50

/-- `BLUE_PROFILE_WIDTH_MM = 60`. -/
def BLUE_PROFILE_WIDTH_MM : ℚ := 60

/-- `SYSTEM_4_GAP_MM = 45.333333`. -/
def SYSTEM_4_GAP_MM : ℚ := 45.333333

/-- `SYSTEM_6_GAP_MM = 7.2`. -/
def SYSTEM_6_GAP_MM : ℚ := 7.2

/-- `TOTAL_SPAN_MM = 336.0`. -/
def TOTAL_SPAN_MM : ℚ := 336

/-- `VISUAL_OFFSET_MM = 30.0`. -/
def VISUAL_OFFSET_MM : ℚ := 30

/-- Safe-zone start for a profile pair: `Math.max(StartA, StartB)` on the
longitudinal axis (`y` for vertical profiles, `x` for horizontal ones). -/
def safeStartFor (o : Orientation) (P Q : CDProfile ℚ) : ℚ :=
  if o = .Vertical then max P.y1 Q.y1 else max P.x1 Q.x1

/-- Safe-zone end for a profile pair: `Math.min(EndA, EndB)`. -/
def safeEndFor (o : Orientation) (P Q : CDProfile ℚ) : ℚ :=
  if o = .Vertical then min P.y2 Q.y2 else min P.x2 Q.x2

/-- Physical gap start between two adjacent profiles: the far edge of the
first profile (`P.x1 + blueProfileWidthPx` for vertical, `P.y1 + width`
for horizontal). -/
def gapStartOf (c : GridCalculator) (o : Orientation) (P : CDProfile ℚ) : ℚ :=
  (if o = .Vertical then P.x1 else P.y1) + c.mmToPx BLUE_PROFILE_WIDTH_MM

/-- Physical gap end: the near edge of the second profile. -/
def gapEndOf (o : Orientation) (Q : CDProfile ℚ) : ℚ :=
  if o = .Vertical then Q.x1 else Q.y1

/-- Block start for the plate recipe in a gap: the `TOTAL_SPAN_MM` block is
centered at the gap midpoint, then shifted by the `-30mm` visual offset. -/
def blockStartOf (c : GridCalculator) (o : Orientation) (P Q : CDProfile ℚ) : ℚ :=
  (gapStartOf c o P + gapEndOf o Q) / 2 - c.mmToPx TOTAL_SPAN_MM / 2 -
    c.mmToPx VISUAL_OFFSET_MM

/-- One iteration of the adjacent-pair loop of `generateHeatPlates`
(`GridCalculator.ts` lines 474-649): safe-zone computation, gap-size check
against the recipe span, centered block with visual offset, and the
fixed-stride render loop.  Returns `[]` when the pair is skipped. -/
def platesForGap (c : GridCalculator) (systemType : SystemType) (o : Orientation)
    (P Q : CDProfile ℚ) : List (HeatPlate ℚ) :=
  let plateWidthPx := c.mmToPx BROWN_PLATE_WIDTH_MM
  let plateCount := if systemType = .System4 then 4 else 6
  let gapBetweenPlatesMM := if systemType = .System4 then SYSTEM_4_GAP_MM else SYSTEM_6_GAP_MM
  let stridePx := plateWidthPx + c.mmToPx gapBetweenPlatesMM
  let safeStart := safeStartFor o P Q
  let safeEnd := safeEndFor o P Q
  if safeEnd - safeStart ≤ 0 then []
  else
    let gapStart := gapStartOf c o P
    let gapEnd := gapEndOf o Q
    let gapSizeMM := (gapEnd - gapStart) / c.pxPerMeter * 1000
    if gapSizeMM < TOTAL_SPAN_MM then []
    else
      let blockStart := blockStartOf c o P Q
      let plateHalfWidth := plateWidthPx / 2
      (List.range plateCount).map fun (j : ℕ) =>
        let plateStart := blockStart + (j : ℚ) * stridePx
        let plateCenter := plateStart + plateHalfWidth
        match o with
        | .Vertical =>
          { id := ""
            x1 := plateCenter
            y1 := safeStart
            x2 := plateCenter
            y2 := safeEnd
            width := plateWidthPx
            orientation := .Vertical }
        | .Horizontal =>
          { id := ""
            x1 := safeStart
            y1 := plateCenter
            x2 := safeEnd
            y2 := plateCenter
            width := plateWidthPx
            orientation := .Horizontal }

/-- Assign plate ids from the running count, as the source pushes
`plate-v-${plates.length}` / `plate-h-${plates.length}`. -/
def withPlateIds (tag : String) (l : List (HeatPlate ℚ)) : List (HeatPlate ℚ) :=
  l.enum.map fun e => { e.2 with id := tag ++ toString e.1 }

/-- A placeholder profile for (unreachable) out-of-range list indexing. -/
def defaultProfile : CDProfile ℚ :=
  { id := "", x1 := 0, y1 := 0, x2 := 0, y2 := 0, width := 0, orientation := .Vertical }

/-- `generateHeatPlates(profiles, systemType, orientation)`: iterates over
adjacent profile pairs `(i, i+1)` and emits the recipe plates for each
non-skipped gap, in pair order, recipe order within each pair. -/
def generateHeatPlates (c : GridCalculator) (profiles : List (CDProfile ℚ))
    (systemType : SystemType) (o : Orientation) : List (HeatPlate ℚ) :=
  if profiles.length < 2 then []
  else
    let raw := (List.range (profiles.length - 1)).flatMap fun i =>
      platesForGap c systemType o (profiles.getD i defaultProfile)
        (profiles.getD (i + 1) defaultProfile)
    withPlateIds (if o = .Vertical then "plate-v-" else "plate-h-") raw

end GridCalculator

/-! ### PipeRouter (`src/utils/PipeRouter.ts`), embedded over `ℝ` -/

/-- One command of an SVG path string: `M x y`, `L x y`, or
`A r r 0 0 sweep x y` (the router always writes equal radii and
`large-arc-flag 0`, so only radius, sweep flag and target vary). -/
inductive PathCmd where
  | move (p : Pt ℝ)
  | line (p : Pt ℝ)
  | arc (radius : ℝ) (sweep : Bool) (target : Pt ℝ)

/-- `HeatingCircuit` from `src/types/index.ts`: the `pathData` string is
modelled as the list of its path commands. -/
structure HeatingCircuit where
  id : String
  color : String
  pathData : List PathCmd
  length : ℝ

/-- `PlateEnds` interface of `PipeRouter.ts`. -/
structure PlateEnds where
  connectionEnd : Pt ℝ
  turnEnd : Pt ℝ

/-- `BlockPath` interface of `PipeRouter.ts` (`pathData` + `lengthMm`). -/
structure BlockPath where
  pathData : List PathCmd
  lengthMm : ℝ

/-- `MAX_CIRCUIT_LENGTH_MM = 100000`. -/
def MAX_CIRCUIT_LENGTH_MM : ℝ := 100000

/-- `STUB_LENGTH_MM = 150`. -/
def STUB_LENGTH_MM : ℝ := 150

/-- `MAX_TURN_DEPTH_MM = 250`. -/
def MAX_TURN_DEPTH_MM : ℝ := 250

/-- `SMALL_TURN_DEPTH_MM = 150`. -/
def SMALL_TURN_DEPTH_MM : ℝ := 150

/-- `CIRCUIT_COLORS`: the fixed 6-entry palette. -/
def CIRCUIT_COLORS : List String :=
  ["#32CD32", "#228B22", "#FF6600", "#0066FF", "#9933FF", "#FF3399"]

noncomputable section

/-- `distance(p1, p2) = Math.sqrt(dx*dx + dy*dy)`. -/
def distance (p1 p2 : Pt ℝ) : ℝ :=
  Real.sqrt ((p2.x - p1.x) * (p2.x - p1.x) + (p2.y - p1.y) * (p2.y - p1.y))

/-- `mmToPx(mm, pxPerMeter)` of `PipeRouter.ts`. -/
def mmToPxR (mm pxPerMeter : ℝ) : ℝ :=
  mm / 1000 * pxPerMeter

/-- `getSideVector(side)`: outward unit vector of a connection side. -/
def getSideVector (side : ConnectionSide) : Pt ℝ :=
  match side with
  | .top => ⟨0, -1⟩
  | .bottom => ⟨0, 1⟩
  | .left => ⟨-1, 0⟩
  | .right => ⟨1, 0⟩

/-- `getTurnSide(connectionSide)`: the geometric opposite side. -/
def getTurnSide (connectionSide : ConnectionSide) : ConnectionSide :=
  match connectionSide with
  | .top => .bottom
  | .bottom => .top
  | .left => .right
  | .right => .left

/-- `getPlateEnds(plate, orientation, connectionSide)`: which endpoint of the
plate faces the connection side and which faces the turn side. -/
def getPlateEnds (plate : HeatPlate ℝ) (o : Orientation) (connectionSide : ConnectionSide) :
    PlateEnds :=
  let p1 : Pt ℝ := ⟨plate.x1, plate.y1⟩
  let p2 : Pt ℝ := ⟨plate.x2, plate.y2⟩
  match o with
  | .Vertical =>
    if connectionSide = .bottom then
      if p1.y > p2.y then ⟨p1, p2⟩ else ⟨p2, p1⟩
    else
      if p1.y < p2.y then ⟨p1, p2⟩ else ⟨p2, p1⟩
  | .Horizontal =>
    if connectionSide = .left then
      if p1.x < p2.x then ⟨p1, p2⟩ else ⟨p2, p1⟩
    else
      if p1.x > p2.x then ⟨p1, p2⟩ else ⟨p2, p1⟩

/-- `sortPlates(plates, orientation)`: ascending stable sort by `x1`
(vertical plates, left to right) or `y1` (horizontal plates, top to
bottom), modelling `Array.prototype.sort` with the numeric comparator. -/
def sortPlates (plates : List (HeatPlate ℝ)) (o : Orientation) : List (HeatPlate ℝ) :=
  if o = .Vertical then
    plates.insertionSort (fun a b => a.x1 ≤ b.x1)
  else
    plates.insertionSort (fun a b => a.y1 ≤ b.y1)

/-- `chunkPlates(plates, 8)`: consecutive chunks of 8 (the source is called
with `size = 8` only). -/
def chunkPlates (plates : List (HeatPlate ℝ)) : List (List (HeatPlate ℝ)) :=
  if h : plates = [] then []
  else plates.take 8 :: chunkPlates (plates.drop 8)
termination_by plates.length
decreasing_by
  simp only [List.length_drop]
  exact Nat.sub_lt (List.length_pos.mpr h) (by norm_num)

/-- `createDXFStyleTurn(p1, p2, depth, side, orientation, pxPerMeter)`:
DXF-style flattened-U turn (line, arc, line, arc, line) with radius
`min(50mm, gap/2)`, or a straight fallback when
`span < actualRadiusPx * 2`. -/
def createDXFStyleTurn (p1 p2 : Pt ℝ) (depth : ℝ) (side : ConnectionSide)
    (_o : Orientation) (pxPerMeter : ℝ) : BlockPath :=
  let depthPx := mmToPxR depth pxPerMeter
  let dir := getSideVector side
  let radiusMm : ℝ := 50
  let gapPx := distance p1 p2
  let gapMm := gapPx / pxPerMeter * 1000
  let halfGapMm := gapMm / 2
  let actualRadiusMm := min radiusMm halfGapMm
  let actualRadiusPx := mmToPxR actualRadiusMm pxPerMeter
  let dx := p2.x - p1.x
  let dy := p2.y - p1.y
  let span := Real.sqrt (dx * dx + dy * dy)
  if span < actualRadiusPx * 2 then
    { pathData := [.move p1, .line p2], lengthMm := span / pxPerMeter * 1000 }
  else
    let unitX := dx / span
    let unitY := dy / span
    let midX := (p1.x + p2.x) / 2
    let midY := (p1.y + p2.y) / 2
    let turnX := midX + dir.x * depthPx
    let turnY := midY + dir.y * depthPx
    let cornerStart : Pt ℝ := ⟨p1.x + unitX * actualRadiusPx, p1.y + unitY * actualRadiusPx⟩
    let cornerEnd : Pt ℝ := ⟨turnX - unitX * actualRadiusPx, turnY - unitY * actualRadiusPx⟩
    let bridgeEnd : Pt ℝ := ⟨turnX + unitX * actualRadiusPx, turnY + unitY * actualRadiusPx⟩
    let endStart : Pt ℝ := ⟨p2.x - unitX * actualRadiusPx, p2.y - unitY * actualRadiusPx⟩
    let crossProduct := (p2.x - p1.x) * (turnY - p1.y) - (p2.y - p1.y) * (turnX - p1.x)
    let sweepFlag1 : Bool := if crossProduct > 0 then true else false
    let sweepFlag2 : Bool := !sweepFlag1
    let lengthPx :=
      distance p1 cornerStart +
      Real.pi * actualRadiusPx / 2 +
      distance cornerEnd bridgeEnd +
      Real.pi * actualRadiusPx / 2 +
      distance endStart p2
    { pathData :=
        [.move p1, .line cornerStart, .arc actualRadiusPx sweepFlag1 cornerEnd,
         .line bridgeEnd, .arc actualRadiusPx sweepFlag2 endStart, .line p2]
      lengthMm := lengthPx / pxPerMeter * 1000 }

/-- A placeholder for (unreachable) out-of-range `plateEnds` indexing. -/
def defaultEnds : PlateEnds := ⟨⟨0, 0⟩, ⟨0, 0⟩⟩

/-- `generatePatternPaths(plates, connectionSide, orientation, pxPerMeter,
blockIndex)`: the strict 8-pipe register pattern for one block — turn-side
big nest (pairs 1-8, 2-7, 3-6, 4-5 with linearly decreasing depth), then
the connection side (start-block exception with two 150mm stubs for
`blockIndex = 0`, double-nest pattern otherwise). -/
def generatePatternPaths (plates : List (HeatPlate ℝ)) (connectionSide : ConnectionSide)
    (o : Orientation) (pxPerMeter : ℝ) (blockIndex : ℕ) : BlockPath :=
  let plateEnds := plates.map (fun p => getPlateEnds p o connectionSide)
  let e := fun i => plateEnds.getD i defaultEnds
  let turnSide := getTurnSide connectionSide
  let t1 := createDXFStyleTurn (e 0).turnEnd (e 7).turnEnd
    (MAX_TURN_DEPTH_MM * ((4 - 0) / 4)) turnSide o pxPerMeter
  let t2 := createDXFStyleTurn (e 1).turnEnd (e 6).turnEnd
    (MAX_TURN_DEPTH_MM * ((4 - 1) / 4)) turnSide o pxPerMeter
  let t3 := createDXFStyleTurn (e 2).turnEnd (e 5).turnEnd
    (MAX_TURN_DEPTH_MM * ((4 - 2) / 4)) turnSide o pxPerMeter
  let t4 := createDXFStyleTurn (e 3).turnEnd (e 4).turnEnd
    (MAX_TURN_DEPTH_MM * ((4 - 3) / 4)) turnSide o pxPerMeter
  if blockIndex = 0 then
    let stubPx := mmToPxR STUB_LENGTH_MM pxPerMeter
    let connDir := getSideVector connectionSide
    let pipe1Start := (e 0).connectionEnd
    let pipe1End : Pt ℝ := ⟨pipe1Start.x + connDir.x * stubPx, pipe1Start.y + connDir.y * stubPx⟩
    let pipe2Start := (e 1).connectionEnd
    let pipe2End : Pt ℝ := ⟨pipe2Start.x + connDir.x * stubPx, pipe2Start.y + connDir.y * stubPx⟩
    let pipe34 := createDXFStyleTurn (e 2).connectionEnd (e 3).connectionEnd
      SMALL_TURN_DEPTH_MM connectionSide o pxPerMeter
    let group2Outer := createDXFStyleTurn (e 4).connectionEnd (e 7).connectionEnd
      SMALL_TURN_DEPTH_MM connectionSide o pxPerMeter
    let group2Inner := createDXFStyleTurn (e 5).connectionEnd (e 6).connectionEnd
      SMALL_TURN_DEPTH_MM connectionSide o pxPerMeter
    { pathData :=
        t1.pathData ++ t2.pathData ++ t3.pathData ++ t4.pathData ++
        [.move pipe1Start, .line pipe1End] ++ [.move pipe2Start, .line pipe2End] ++
        pipe34.pathData ++ group2Outer.pathData ++ group2Inner.pathData
      lengthMm :=
        t1.lengthMm + t2.lengthMm + t3.lengthMm + t4.lengthMm +
        STUB_LENGTH_MM + STUB_LENGTH_MM +
        pipe34.lengthMm + group2Outer.lengthMm + group2Inner.lengthMm }
  else
    let group1Outer := createDXFStyleTurn (e 0).connectionEnd (e 3).connectionEnd
      SMALL_TURN_DEPTH_MM connectionSide o pxPerMeter
    let group1Inner := createDXFStyleTurn (e 1).connectionEnd (e 2).connectionEnd
      SMALL_TURN_DEPTH_MM connectionSide o pxPerMeter
    let group2Outer := createDXFStyleTurn (e 4).connectionEnd (e 7).connectionEnd
      SMALL_TURN_DEPTH_MM connectionSide o pxPerMeter
    let group2Inner := createDXFStyleTurn (e 5).connectionEnd (e 6).connectionEnd
      SMALL_TURN_DEPTH_MM connectionSide o pxPerMeter
    { pathData :=
        t1.pathData ++ t2.pathData ++ t3.pathData ++ t4.pathData ++
        group1Outer.pathData ++ group1Inner.pathData ++
        group2Outer.pathData ++ group2Inner.pathData
      lengthMm :=
        t1.lengthMm + t2.lengthMm + t3.lengthMm + t4.lengthMm +
        group1Outer.lengthMm + group1Inner.lengthMm +
        group2Outer.lengthMm + group2Inner.lengthMm }

/-- The routing accumulator of `calculateCircuits`: finalized circuits, the
current circuit's path parts, and the current circuit's length. -/
structure RouteState where
  circuits : List HeatingCircuit
  currentPathParts : List (List PathCmd)
  currentLengthMm : ℝ

/-- One iteration of the `blocks.forEach` loop of `calculateCircuits`
(`PipeRouter.ts` lines 67-89): skip an empty block path; append the block to
the current circuit if it is empty or stays within
`MAX_CIRCUIT_LENGTH_MM`; otherwise finalize the current circuit (palette
color from the finalized count) and start a new one with this block. -/
def routeStep (connectionSide : ConnectionSide) (o : Orientation) (pxPerMeter : ℝ)
    (st : RouteState) (ib : ℕ × List (HeatPlate ℝ)) : RouteState :=
  let blockPath := generatePatternPaths ib.2 connectionSide o pxPerMeter ib.1
  if blockPath.pathData.isEmpty then st
  else if st.currentPathParts.isEmpty then
    { st with
        currentPathParts := st.currentPathParts ++ [blockPath.pathData]
        currentLengthMm := st.currentLengthMm + blockPath.lengthMm }
  else if st.currentLengthMm + blockPath.lengthMm ≤ MAX_CIRCUIT_LENGTH_MM then
    { st with
        currentPathParts := st.currentPathParts ++ [blockPath.pathData]
        currentLengthMm := st.currentLengthMm + blockPath.lengthMm }
  else
    { circuits := st.circuits ++
        [{ id := "circuit-" ++ toString st.circuits.length
           color := CIRCUIT_COLORS.getD (st.circuits.length % CIRCUIT_COLORS.length) ""
           pathData := st.currentPathParts.flatten
           length := st.currentLengthMm }]
      currentPathParts := [blockPath.pathData]
      currentLengthMm := blockPath.lengthMm }

/-- `calculateCircuits(heatPlates, connectionSide, orientation, pxPerMeter)`:
sort, chunk into complete blocks of 8, route each block, group blocks into
length-bounded circuits, and finalize the last non-empty circuit. -/
def calculateCircuits (heatPlates : List (HeatPlate ℝ)) (connectionSide : ConnectionSide)
    (o : Orientation) (pxPerMeter : ℝ) : List HeatingCircuit :=
  if heatPlates.isEmpty then []
  else
    let sortedPlates := sortPlates heatPlates o
    let blocks := (chunkPlates sortedPlates).filter (fun block => block.length = 8)
    if blocks.isEmpty then []
    else
      let final := blocks.enum.foldl (routeStep connectionSide o pxPerMeter)
        ⟨[], [], 0⟩
      if final.currentPathParts.isEmpty then final.circuits
      else
        final.circuits ++
          [{ id := "circuit-" ++ toString final.circuits.length
             color := CIRCUIT_COLORS.getD (final.circuits.length % CIRCUIT_COLORS.length) ""
             pathData := final.currentPathParts.flatten
             length := final.currentLengthMm }]

/-- `true` iff a path contains at least one arc command (i.e. it is an
arc-based turn rather than a straight fallback). -/
def hasArc : List PathCmd → Bool
  | [] => false
  | .arc _ _ _ :: _ => true
  | _ :: rest => hasArc rest

/-- Coordinate cast of a plate from the (rational) grid embedding into the
real-valued router embedding. -/
def plateToR (p : HeatPlate ℚ) : HeatPlate ℝ :=
  { id := p.id, x1 := p.x1, y1 := p.y1, x2 := p.x2, y2 := p.y2,
    width := p.width, orientation := p.orientation }

/-- The full engine run as invoked by the surrounding application with a
settings record: the store builds `new GridCalculator(pxPerMeter, settings)`
(whose constructor keeps only `pxPerMeter`), generates profiles and plates,
and the router is invoked with plates, connection side, orientation and
scale only. -/
def fullLayout (settings : GlobalSettings) (pxPerMeter : ℚ) (room : Room) :
    List (CDProfile ℚ) × List (HeatPlate ℚ) × List HeatingCircuit :=
  let c := GridCalculator.fromStore pxPerMeter settings
  let profiles := c.generateCDProfiles room
  let plates := c.generateHeatPlates profiles room.systemType room.orientation
  let circuits := calculateCircuits (plates.map plateToR) room.connectionSide
    room.orientation (pxPerMeter : ℝ)
  (profiles, plates, circuits)

/-- The longitudinal interval of a heat plate: `(y1, y2)` for vertical
plates, `(x1, x2)` for horizontal ones. -/
def plateLongInterval (o : Orientation) (p : HeatPlate ℚ) : ℚ × ℚ :=
  if o = .Vertical then (p.y1, p.y2) else (p.x1, p.x2)

/-- The longitudinal start of a profile (`y1` for vertical, `x1` for
horizontal). -/
def profileLongStart (o : Orientation) (P : CDProfile ℚ) : ℚ :=
  if o = .Vertical then P.y1 else P.x1

/-- The longitudinal end of a profile (`y2` for vertical, `x2` for
horizontal). -/
def profileLongEnd (o : Orientation) (P : CDProfile ℚ) : ℚ :=
  if o = .Vertical then P.y2 else P.x2

/-- Placeholder circuit for out-of-range `getD` indexing in statements. -/
def dummyCircuit : HeatingCircuit :=
  { id := "", color := "", pathData := [], length := 0 }

/-- A concrete register block: eight parallel vertical plates. -/
def plates8R : List (HeatPlate ℝ) :=
  [⟨"p0", 100, 0, 100, 2000, 50, .Vertical⟩,
   ⟨"p1", 200, 0, 200, 2000, 50, .Vertical⟩,
   ⟨"p2", 300, 0, 300, 2000, 50, .Vertical⟩,
   ⟨"p3", 400, 0, 400, 2000, 50, .Vertical⟩,
   ⟨"p4", 500, 0, 500, 2000, 50, .Vertical⟩,
   ⟨"p5", 600, 0, 600, 2000, 50, .Vertical⟩,
   ⟨"p6", 700, 0, 700, 2000, 50, .Vertical⟩,
   ⟨"p7", 800, 0, 800, 2000, 50, .Vertical⟩]

end

/-- A concrete rectangular room, 2600px × 2000px (2.6m × 2m at 1000 px/m),
drawn with vertical profile orientation. -/
def roomRect : Room :=
  { points := [⟨0, 0⟩, ⟨2600, 0⟩, ⟨2600, 2000⟩, ⟨0, 2000⟩],
    systemType := .System4,
    orientation := .Vertical,
    connectionSide := .bottom }

/-- A concrete vertical profile at the left of a gap (drawn from `x1 = 0`). -/
def profP : CDProfile ℚ :=
  { id := "P", x1 := 0, y1 := 0, x2 := 0, y2 := 2000, width := 60, orientation := .Vertical }

/-- A concrete vertical profile whose near edge leaves a physical gap of
exactly 336mm (at 1000 px/m) to `profP`'s far edge. -/
def profQ : CDProfile ℚ :=
  { id := "Q", x1 := 396, y1 := 0, x2 := 396, y2 := 2000, width := 60, orientation := .Vertical }

/-! ## Theorems -/

/-- `Array.min`-style fold: the running minimum never exceeds its seed. -/
theorem foldl_min_le_init (x : ℚ) (l : List ℚ) : l.foldl min x ≤ x := by
  induction l generalizing x with
  | nil => simp
  | cons a t ih => exact le_trans (ih (min x a)) (min_le_left x a)

/-- `Array.max`-style fold: the running maximum is at least its seed. -/
theorem init_le_foldl_max (x : ℚ) (l : List ℚ) : x ≤ l.foldl max x := by
  induction l generalizing x with
  | nil => simp
  | cons a t ih => exact le_trans (le_max_left x a) (ih (max x a))

/-- On a nonempty list the minimum is at most the maximum. -/
theorem listMin_le_listMax {l : List ℚ} (h : l ≠ []) : listMin l ≤ listMax l := by
  cases l with
  | nil => exact absurd rfl h
  | cons a t =>
    exact le_trans (foldl_min_le_init a t) (init_le_foldl_max a t)

/-- The room extent along the grid axis is nonnegative for a nonempty
polygon. -/
theorem roomExtentPx_nonneg {points : List (Pt ℚ)} (h : points ≠ []) (o : Orientation) :
    0 ≤ GridCalculator.roomExtentPx points o := by
  have hx : points.map (·.x) ≠ [] := by simpa using h
  have hy : points.map (·.y) ≠ [] := by simpa using h
  unfold GridCalculator.roomExtentPx GridCalculator.getBoundingBox
  rcases o <;> simp [sub_nonneg, listMin_le_listMax, hx, hy]

/-- When the candidate count is below 1 the profile generator bails out
with the empty list. -/
theorem generateCDProfiles_eq_empty (c : GridCalculator) (room : Room)
    (h : GridCalculator.profileCandidateCount c room.points room.orientation < 1) :
    c.generateCDProfiles room = [] := by
  unfold GridCalculator.generateCDProfiles
  rcases ho : room.orientation <;> rw [ho] at h <;> simp only [ho] <;> rw [if_pos h]

/-- **C8.** `quantizeLength` (round down to the nearest 100mm step) is
idempotent, and non-increasing on nonnegative lengths. -/
theorem quantizeLength_idempotent_nonincreasing (x : ℚ) (hx : 0 ≤ x) :
    GridCalculator.quantizeLength (GridCalculator.quantizeLength x) =
        GridCalculator.quantizeLength x ∧
      GridCalculator.quantizeLength x ≤ x := by
  unfold GridCalculator.quantizeLength GridCalculator.LENGTH_STEP_MM
  constructor
  · have h100 : ((⌊x / 100⌋ : ℚ) * 100) / 100 = (⌊x / 100⌋ : ℚ) := by
      field_simp
    rw [h100, Int.floor_intCast]
  · have hfl : (⌊x / 100⌋ : ℚ) ≤ x / 100 := Int.floor_le _
    have := mul_le_mul_of_nonneg_right hfl (by norm_num : (0 : ℚ) ≤ 100)
    linarith [this]

/-- Witness for C8 at the concrete length 250mm (quantized to 200mm). -/
theorem quantizeLength_idempotent_nonincreasing_witness :
    (0 : ℚ) ≤ 250 ∧
      (GridCalculator.quantizeLength (GridCalculator.quantizeLength 250) =
          GridCalculator.quantizeLength 250 ∧
        GridCalculator.quantizeLength 250 ≤ 250) :=
  ⟨by norm_num, quantizeLength_idempotent_nonincreasing 250 (by norm_num)⟩

/-- **C9.** The layout pipeline reads every millimetre constant from
hard-coded values: two runs that differ only in the caller-supplied
settings record produce identical profiles, plates and circuits. -/
theorem settings_do_not_affect_layout (s1 s2 : GlobalSettings) (px : ℚ) (room : Room) :
    fullLayout s1 px room = fullLayout s2 px room := rfl

/-- **C5.** `generateCDProfiles` attempts exactly
`floor((extentMM - 2*100)/400) + 1` candidate positions (and returns `[]`
when that count is below 1); the candidates are equally spaced at 400mm,
the first is offset from the bounding-box minimum by
`(extent - (count-1)*400mm)/2`, and the grid is centered: the margin before
the first candidate equals the margin after the last. -/
theorem profile_grid_count_and_centering (c : GridCalculator) (room : Room)
    (h1 : 1 ≤ GridCalculator.profileCandidateCount c room.points room.orientation) :
    GridCalculator.profileCandidateCount c room.points room.orientation =
        ⌊(GridCalculator.roomExtentPx room.points room.orientation / c.pxPerMeter * 1000 -
            2 * 100) / 400⌋ + 1 ∧
    (GridCalculator.profileCandidatePositions c room.points room.orientation).length =
        (GridCalculator.profileCandidateCount c room.points room.orientation).toNat ∧
    (∀ i < (GridCalculator.profileCandidateCount c room.points room.orientation).toNat,
      (GridCalculator.profileCandidatePositions c room.points room.orientation).getD i 0 =
        (if room.orientation = .Vertical then (GridCalculator.getBoundingBox room.points).minX
          else (GridCalculator.getBoundingBox room.points).minY) +
          GridCalculator.profileStartOffsetPx c room.points room.orientation +
          (i : ℚ) * c.mmToPx GridCalculator.CD_PROFILE_SPACING_MM) ∧
    GridCalculator.profileStartOffsetPx c room.points room.orientation =
        (if room.orientation = .Vertical then (GridCalculator.getBoundingBox room.points).maxX
          else (GridCalculator.getBoundingBox room.points).maxY) -
          ((if room.orientation = .Vertical then (GridCalculator.getBoundingBox room.points).minX
            else (GridCalculator.getBoundingBox room.points).minY) +
            GridCalculator.profileStartOffsetPx c room.points room.orientation +
            ((GridCalculator.profileCandidateCount c room.points room.orientation : ℚ) - 1) *
              c.mmToPx GridCalculator.CD_PROFILE_SPACING_MM) ∧
    (∀ (c' : GridCalculator) (room' : Room),
      GridCalculator.profileCandidateCount c' room'.points room'.orientation < 1 →
        c'.generateCDProfiles room' = []) := by
  refine ⟨rfl, ?_, ?_, ?_, ?_⟩
  · simp only [GridCalculator.profileCandidatePositions, List.length_map, List.length_range]
  · intro i hi
    have hlen : i < (GridCalculator.profileCandidatePositions c room.points
        room.orientation).length := by
      simpa only [GridCalculator.profileCandidatePositions, List.length_map,
        List.length_range] using hi
    rw [List.getD_eq_getElem _ _ hlen]
    simp only [GridCalculator.profileCandidatePositions, List.getElem_map, List.getElem_range]
  · have hspan : c.mmToPx
        (((GridCalculator.profileCandidateCount c room.points room.orientation : ℚ) - 1) *
          GridCalculator.CD_PROFILE_SPACING_MM) =
        ((GridCalculator.profileCandidateCount c room.points room.orientation : ℚ) - 1) *
          c.mmToPx GridCalculator.CD_PROFILE_SPACING_MM := by
      unfold GridCalculator.mmToPx
      ring
    unfold GridCalculator.profileStartOffsetPx GridCalculator.roomExtentPx
    rcases h : room.orientation <;> simp only [h] <;>
      · simp only [reduceCtorEq, if_true, if_false, GridCalculator.mmToPx,
          GridCalculator.CD_PROFILE_SPACING_MM]
        ring
  · intro c' room' hlt
    exact generateCDProfiles_eq_empty c' room' hlt

/-- Witness for C5: the 2.6m-wide rectangular room (usable width 2400mm at
1000 px/m) gets exactly 7 equally spaced candidate positions. -/
theorem profile_grid_count_and_centering_witness :
    1 ≤ GridCalculator.profileCandidateCount ⟨1000⟩ roomRect.points roomRect.orientation ∧
      (GridCalculator.profileCandidatePositions ⟨1000⟩ roomRect.points
          roomRect.orientation).length = 7 := by
  have hcnt : GridCalculator.profileCandidateCount ⟨1000⟩ roomRect.points
      roomRect.orientation = 7 := by
    simp only [GridCalculator.profileCandidateCount, GridCalculator.roomExtentPx,
      GridCalculator.getBoundingBox, GridCalculator.GRID_MARGIN_MM,
      GridCalculator.CD_PROFILE_SPACING_MM, listMin, listMax, roomRect, List.map_cons,
      List.map_nil, List.foldl_cons, List.foldl_nil]
    norm_num [min_def, max_def]
  have h1 : 1 ≤ GridCalculator.profileCandidateCount ⟨1000⟩ roomRect.points
      roomRect.orientation := by rw [hcnt]; norm_num
  refine ⟨h1, ?_⟩
  rw [(profile_grid_count_and_centering ⟨1000⟩ roomRect h1).2.1, hcnt]
  rfl

/-- **C7 (amended).** The engine performs no calibration validation:
constructing `GridCalculator` accepts any `pxPerMeter` and running it
returns normally.  With a negative scale the profile generator returns the
empty list (the candidate count drops below 1) — no distinct "uncalibrated"
error state exists. -/
theorem negative_scale_runs_and_yields_no_profiles (s : ℚ) (room : Room)
    (hs : s < 0) (hpts : room.points ≠ []) :
    GridCalculator.generateCDProfiles ⟨s⟩ room = [] := by
  apply generateCDProfiles_eq_empty
  unfold GridCalculator.profileCandidateCount
  have hext : 0 ≤ GridCalculator.roomExtentPx room.points room.orientation :=
    roomExtentPx_nonneg hpts _
  have hdiv : GridCalculator.roomExtentPx room.points room.orientation / s ≤ 0 :=
    div_nonpos_iff.mpr (Or.inl ⟨hext, le_of_lt hs⟩)
  have hmm : GridCalculator.roomExtentPx room.points room.orientation / s * 1000 ≤ 0 := by
    nlinarith
  have husable : GridCalculator.roomExtentPx room.points room.orientation / s * 1000 -
      2 * GridCalculator.GRID_MARGIN_MM ≤ -200 := by
    unfold GridCalculator.GRID_MARGIN_MM
    linarith
  have hfl : ⌊(GridCalculator.roomExtentPx room.points room.orientation / s * 1000 -
      2 * GridCalculator.GRID_MARGIN_MM) / GridCalculator.CD_PROFILE_SPACING_MM⌋ ≤
      ⌊(-200 : ℚ) / 400⌋ := by
    apply Int.floor_le_floor
    unfold GridCalculator.CD_PROFILE_SPACING_MM
    exact (div_le_div_iff_of_pos_right (by norm_num)).mpr husable
  have hval : ⌊(-200 : ℚ) / 400⌋ = -1 := by
    rw [show (-200 : ℚ) / 400 = -(1 / 2) by norm_num]
    rw [Int.floor_eq_iff]
    norm_num
  simp only [GridCalculator.profileCandidateCount]
  omega

/-- Witness for the amended C7 at the concrete scale `-1000`. -/
theorem negative_scale_runs_witness :
    (-1000 : ℚ) < 0 ∧ GridCalculator.generateCDProfiles ⟨-1000⟩ roomRect = [] :=
  ⟨by norm_num,
    negative_scale_runs_and_yields_no_profiles (-1000) roomRect (by norm_num)
      (by simp [roomRect])⟩

/-- Reassigning ids keeps the underlying plate fields: a member of
`withPlateIds tag l` is a member of `l` with only its `id` replaced. -/
theorem mem_withPlateIds {tag : String} {l : List (HeatPlate ℚ)} {p : HeatPlate ℚ}
    (hp : p ∈ GridCalculator.withPlateIds tag l) :
    ∃ q ∈ l, p = { q with id := p.id } := by
  unfold GridCalculator.withPlateIds at hp
  rcases List.mem_map.mp hp with ⟨e, he, rfl⟩
  refine ⟨e.2, ?_, rfl⟩
  have h2 : e.2 ∈ l.enum.map Prod.snd := List.mem_map.mpr ⟨e, he, rfl⟩
  rwa [List.enum_map_snd] at h2

/-- Any plate emitted for one profile pair has a nonempty safe zone and its
longitudinal interval is exactly that safe zone. -/
theorem platesForGap_mem {c : GridCalculator} {sys : SystemType} {o : Orientation}
    {P Q : CDProfile ℚ} {q : HeatPlate ℚ}
    (hq : q ∈ GridCalculator.platesForGap c sys o P Q) :
    GridCalculator.safeStartFor o P Q < GridCalculator.safeEndFor o P Q ∧
      plateLongInterval o q =
        (GridCalculator.safeStartFor o P Q, GridCalculator.safeEndFor o P Q) := by
  simp only [GridCalculator.platesForGap] at hq
  split_ifs at hq
  all_goals
    first
    | exact absurd hq (List.not_mem_nil q)
    | (rcases List.mem_map.mp hq with ⟨j, hj, rfl⟩
       exact ⟨by linarith, by rcases o <;> simp [plateLongInterval]⟩)

/-- A pair whose safe zone is empty emits no plates. -/
theorem platesForGap_empty_safe_zone (c : GridCalculator) (sys : SystemType)
    (o : Orientation) (P Q : CDProfile ℚ)
    (h : GridCalculator.safeEndFor o P Q ≤ GridCalculator.safeStartFor o P Q) :
    GridCalculator.platesForGap c sys o P Q = [] := by
  simp only [GridCalculator.platesForGap]
  rw [if_pos (by linarith)]

/-- The safe zone interval is the set intersection of the two profiles'
longitudinal intervals. -/
theorem safeZone_Icc_eq (o : Orientation) (P Q : CDProfile ℚ) :
    Set.Icc (GridCalculator.safeStartFor o P Q) (GridCalculator.safeEndFor o P Q) =
      Set.Icc (profileLongStart o P) (profileLongEnd o P) ∩
        Set.Icc (profileLongStart o Q) (profileLongEnd o Q) := by
  rw [Set.Icc_inter_Icc]
  rcases o <;>
    simp [GridCalculator.safeStartFor, GridCalculator.safeEndFor, profileLongStart,
      profileLongEnd, max_def, min_def]

/-- **C2.** Every heat plate emitted by `generateHeatPlates` comes from an
adjacent profile pair whose safe zone is nonempty, its longitudinal interval
equals that pair's safe zone `[max(start_i, start_j), min(end_i, end_j)]`,
and hence it is contained in the intersection of the two bounding profiles'
longitudinal intervals; a pair with an empty safe zone emits no plates. -/
theorem heat_plates_confined_to_safe_zone (c : GridCalculator)
    (profiles : List (CDProfile ℚ)) (sys : SystemType) (o : Orientation) (p : HeatPlate ℚ)
    (hp : p ∈ c.generateHeatPlates profiles sys o) :
    (∃ i, i + 1 < profiles.length ∧
      GridCalculator.safeStartFor o (profiles.getD i GridCalculator.defaultProfile)
          (profiles.getD (i + 1) GridCalculator.defaultProfile) <
        GridCalculator.safeEndFor o (profiles.getD i GridCalculator.defaultProfile)
          (profiles.getD (i + 1) GridCalculator.defaultProfile) ∧
      plateLongInterval o p =
        (GridCalculator.safeStartFor o (profiles.getD i GridCalculator.defaultProfile)
            (profiles.getD (i + 1) GridCalculator.defaultProfile),
          GridCalculator.safeEndFor o (profiles.getD i GridCalculator.defaultProfile)
            (profiles.getD (i + 1) GridCalculator.defaultProfile)) ∧
      Set.Icc (plateLongInterval o p).1 (plateLongInterval o p).2 ⊆
        Set.Icc (profileLongStart o (profiles.getD i GridCalculator.defaultProfile))
            (profileLongEnd o (profiles.getD i GridCalculator.defaultProfile)) ∩
          Set.Icc (profileLongStart o (profiles.getD (i + 1) GridCalculator.defaultProfile))
            (profileLongEnd o (profiles.getD (i + 1) GridCalculator.defaultProfile))) ∧
    (∀ P Q : CDProfile ℚ,
      GridCalculator.safeEndFor o P Q ≤ GridCalculator.safeStartFor o P Q →
        GridCalculator.platesForGap c sys o P Q = []) := by
  refine ⟨?_, platesForGap_empty_safe_zone c sys o⟩
  unfold GridCalculator.generateHeatPlates at hp
  split_ifs at hp with hlen
  case pos => exact absurd hp (List.not_mem_nil p)
  all_goals
    rcases mem_withPlateIds hp with ⟨q, hq, heq⟩
    rcases List.mem_flatMap.mp hq with ⟨i, hi, hqi⟩
    have hrange : i < profiles.length - 1 := List.mem_range.mp hi
    rcases platesForGap_mem hqi with ⟨hlt, hint⟩
    have hint2 : plateLongInterval o p = plateLongInterval o q := by
      rw [heq]
      rcases o <;> simp [plateLongInterval]
    refine ⟨i, by omega, hlt, by rw [hint2, hint], ?_⟩
    rw [hint2, hint, ← safeZone_Icc_eq]

/-- Witness for C2: two concrete vertical profiles with a 336mm gap and a
full overlap; the first emitted plate lies exactly on the common safe zone
`[0, 2000]`. -/
theorem heat_plates_confined_witness :
    (⟨"plate-v-0", 55, 0, 55, 2000, 50, .Vertical⟩ : HeatPlate ℚ) ∈
        GridCalculator.generateHeatPlates ⟨1000⟩ [profP, profQ] .System4 .Vertical ∧
      (∃ i, i + 1 < ([profP, profQ] : List (CDProfile ℚ)).length ∧
        GridCalculator.safeStartFor .Vertical
            (([profP, profQ] : List (CDProfile ℚ)).getD i GridCalculator.defaultProfile)
            (([profP, profQ] : List (CDProfile ℚ)).getD (i + 1) GridCalculator.defaultProfile) <
          GridCalculator.safeEndFor .Vertical
            (([profP, profQ] : List (CDProfile ℚ)).getD i GridCalculator.defaultProfile)
            (([profP, profQ] : List (CDProfile ℚ)).getD (i + 1)
              GridCalculator.defaultProfile) ∧
        plateLongInterval .Vertical ⟨"plate-v-0", 55, 0, 55, 2000, 50, .Vertical⟩ =
          (GridCalculator.safeStartFor .Vertical
              (([profP, profQ] : List (CDProfile ℚ)).getD i GridCalculator.defaultProfile)
              (([profP, profQ] : List (CDProfile ℚ)).getD (i + 1)
                GridCalculator.defaultProfile),
            GridCalculator.safeEndFor .Vertical
              (([profP, profQ] : List (CDProfile ℚ)).getD i GridCalculator.defaultProfile)
              (([profP, profQ] : List (CDProfile ℚ)).getD (i + 1)
                GridCalculator.defaultProfile)) ∧
        Set.Icc (plateLongInterval .Vertical
              (⟨"plate-v-0", 55, 0, 55, 2000, 50, .Vertical⟩ : HeatPlate ℚ)).1
            (plateLongInterval .Vertical
              (⟨"plate-v-0", 55, 0, 55, 2000, 50, .Vertical⟩ : HeatPlate ℚ)).2 ⊆
          Set.Icc
              (profileLongStart .Vertical
                (([profP, profQ] : List (CDProfile ℚ)).getD i GridCalculator.defaultProfile))
              (profileLongEnd .Vertical
                (([profP, profQ] : List (CDProfile ℚ)).getD i
                  GridCalculator.defaultProfile)) ∩
            Set.Icc
              (profileLongStart .Vertical
                (([profP, profQ] : List (CDProfile ℚ)).getD (i + 1)
                  GridCalculator.defaultProfile))
              (profileLongEnd .Vertical
                (([profP, profQ] : List (CDProfile ℚ)).getD (i + 1)
                  GridCalculator.defaultProfile))) := by
  have hp : (⟨"plate-v-0", 55, 0, 55, 2000, 50, .Vertical⟩ : HeatPlate ℚ) ∈
      GridCalculator.generateHeatPlates ⟨1000⟩ [profP, profQ] .System4 .Vertical := by
    unfold GridCalculator.generateHeatPlates
    norm_num
    unfold GridCalculator.withPlateIds
    rw [show List.range (2 - 1) = [0] from rfl]
    simp only [List.flatMap_cons, List.flatMap_nil, List.append_nil]
    simp only [GridCalculator.platesForGap, profP, profQ, GridCalculator.safeStartFor,
      GridCalculator.safeEndFor, GridCalculator.gapStartOf, GridCalculator.gapEndOf,
      GridCalculator.blockStartOf, GridCalculator.mmToPx, GridCalculator.BROWN_PLATE_WIDTH_MM,
      GridCalculator.BLUE_PROFILE_WIDTH_MM, GridCalculator.TOTAL_SPAN_MM,
      GridCalculator.VISUAL_OFFSET_MM, GridCalculator.SYSTEM_4_GAP_MM,
      GridCalculator.SYSTEM_6_GAP_MM]
    norm_num [min_def, max_def]
    rw [show List.range 4 = [0, 1, 2, 3] from rfl]
    simp only [List.map_cons, List.map_nil, List.enum, List.enumFrom, List.getD]
    norm_num
    refine ⟨0, _, Or.inl ⟨rfl, rfl⟩, by decide, by norm_num⟩
  exact ⟨hp, (heat_plates_confined_to_safe_zone ⟨1000⟩ [profP, profQ] .System4 .Vertical _
    hp).1⟩

/-- **C6.** When the physical gap between two adjacent vertical profiles'
facing edges is exactly recipe "System 4"'s total span (336mm),
`generateHeatPlates` places exactly 4 plates in that gap and the centered
fixed-span block has zero residual centering margin: undoing the fixed
visual offset, the block start coincides with the gap start and the block
end with the gap end. -/
theorem gap_equal_span_four_plates_zero_margin (c : GridCalculator) (P Q : CDProfile ℚ)
    (hs : 0 < c.pxPerMeter)
    (hover : GridCalculator.safeStartFor .Vertical P Q < GridCalculator.safeEndFor .Vertical P Q)
    (hgap : (GridCalculator.gapEndOf .Vertical Q - GridCalculator.gapStartOf c .Vertical P) /
        c.pxPerMeter * 1000 = GridCalculator.TOTAL_SPAN_MM) :
    (c.generateHeatPlates [P, Q] .System4 .Vertical).length = 4 ∧
      GridCalculator.blockStartOf c .Vertical P Q + c.mmToPx GridCalculator.VISUAL_OFFSET_MM =
        GridCalculator.gapStartOf c .Vertical P ∧
      GridCalculator.gapEndOf .Vertical Q =
        GridCalculator.blockStartOf c .Vertical P Q + c.mmToPx GridCalculator.VISUAL_OFFSET_MM +
          c.mmToPx GridCalculator.TOTAL_SPAN_MM := by
  have hpx : GridCalculator.gapEndOf .Vertical Q - GridCalculator.gapStartOf c .Vertical P =
      c.mmToPx GridCalculator.TOTAL_SPAN_MM := by
    unfold GridCalculator.mmToPx
    have h1000 : (1000 : ℚ) ≠ 0 := by norm_num
    field_simp at hgap
    field_simp
    linarith
  refine ⟨?_, ?_, ?_⟩
  · unfold GridCalculator.generateHeatPlates
    rw [if_neg (by norm_num)]
    simp only [GridCalculator.withPlateIds, List.length_map, List.enum_length]
    rw [show (([P, Q] : List (CDProfile ℚ)).length - 1) = 1 from rfl,
      show List.range 1 = [0] from rfl]
    simp only [List.flatMap_cons, List.flatMap_nil, List.append_nil,
      List.getD_cons_zero, List.getD_cons_succ]
    simp only [GridCalculator.platesForGap]
    rw [if_neg (by linarith), if_neg (by rw [hgap]; norm_num)]
    simp
  · unfold GridCalculator.blockStartOf
    linarith
  · unfold GridCalculator.blockStartOf
    linarith

/-- Witness for C6: concrete vertical profiles at 1000 px/m whose facing
edges are exactly 336px apart (336mm). -/
theorem gap_equal_span_witness :
    0 < (⟨1000⟩ : GridCalculator).pxPerMeter ∧
      GridCalculator.safeStartFor .Vertical profP profQ <
        GridCalculator.safeEndFor .Vertical profP profQ ∧
      (GridCalculator.gapEndOf .Vertical profQ -
          GridCalculator.gapStartOf ⟨1000⟩ .Vertical profP) /
          (⟨1000⟩ : GridCalculator).pxPerMeter * 1000 = GridCalculator.TOTAL_SPAN_MM ∧
      (GridCalculator.generateHeatPlates ⟨1000⟩ [profP, profQ] .System4 .Vertical).length = 4 := by
  have hs : 0 < (⟨1000⟩ : GridCalculator).pxPerMeter := by norm_num
  have hover : GridCalculator.safeStartFor .Vertical profP profQ <
      GridCalculator.safeEndFor .Vertical profP profQ := by
    simp [GridCalculator.safeStartFor, GridCalculator.safeEndFor, profP, profQ]
  have hgap : (GridCalculator.gapEndOf .Vertical profQ -
      GridCalculator.gapStartOf ⟨1000⟩ .Vertical profP) /
      (⟨1000⟩ : GridCalculator).pxPerMeter * 1000 = GridCalculator.TOTAL_SPAN_MM := by
    simp only [GridCalculator.gapEndOf, GridCalculator.gapStartOf, GridCalculator.mmToPx,
      GridCalculator.BLUE_PROFILE_WIDTH_MM, GridCalculator.TOTAL_SPAN_MM, profP, profQ]
    norm_num
  exact ⟨hs, hover, hgap,
    (gap_equal_span_four_plates_zero_margin ⟨1000⟩ profP profQ hs hover hgap).1⟩

/-! ### PipeRouter lemmas -/

/-- `distance` is a square root, hence nonnegative. -/
theorem distance_nonneg (p q : Pt ℝ) : 0 ≤ distance p q := Real.sqrt_nonneg _

/-- Distance along a scalar multiple of a unit vector. -/
theorem distance_mul (ux uy r : ℝ) (hr : 0 ≤ r) (hu : ux * ux + uy * uy = 1)
    (p q : Pt ℝ) (hx : q.x - p.x = ux * r) (hy : q.y - p.y = uy * r) :
    distance p q = r := by
  unfold distance
  rw [hx, hy]
  rw [show ux * r * (ux * r) + uy * r * (uy * r) = (ux * ux + uy * uy) * r ^ 2 by ring,
    hu, one_mul, Real.sqrt_sq hr]

/-- Distance between coincident points is zero. -/
theorem distance_sub_zero (p q : Pt ℝ) (hx : q.x - p.x = 0) (hy : q.y - p.y = 0) :
    distance p q = 0 := by
  unfold distance
  rw [hx, hy]
  norm_num

/-- For a positive calibration scale the straight fallback of
`createDXFStyleTurn` can never fire: twice the shrunk radius
`min(50mm, gap/2)` converted to pixels never exceeds the endpoint span. -/
theorem turn_no_fallback (p1 p2 : Pt ℝ) (s : ℝ) (hs : 0 < s) :
    ¬ (Real.sqrt ((p2.x - p1.x) * (p2.x - p1.x) + (p2.y - p1.y) * (p2.y - p1.y)) <
        min 50 (distance p1 p2 / s * 1000 / 2) / 1000 * s * 2) := by
  have hspan : Real.sqrt ((p2.x - p1.x) * (p2.x - p1.x) + (p2.y - p1.y) * (p2.y - p1.y)) =
      distance p1 p2 := rfl
  rw [hspan, not_lt]
  have hg0 : 0 ≤ distance p1 p2 := distance_nonneg p1 p2
  have hkey : (distance p1 p2 / s * 1000 / 2) / 1000 * s * 2 = distance p1 p2 := by
    field_simp
    ring
  calc min 50 (distance p1 p2 / s * 1000 / 2) / 1000 * s * 2
      ≤ (distance p1 p2 / s * 1000 / 2) / 1000 * s * 2 := by
        gcongr
        exact min_le_right _ _
    _ = distance p1 p2 := hkey

/-- The reported length of `createDXFStyleTurn` for any positive scale: the
arc branch is always taken and its length is `(4 + π) * min(50, gapMm/2)`
millimetres — the straight-segment parts contribute `4r` and the two
quarter-circle arcs `πr`. -/
theorem createDXFStyleTurn_lengthMm (p1 p2 : Pt ℝ) (d : ℝ) (side : ConnectionSide)
    (o : Orientation) (s : ℝ) (hs : 0 < s) :
    (createDXFStyleTurn p1 p2 d side o s).lengthMm =
      (4 + Real.pi) * min 50 (distance p1 p2 / s * 1000 / 2) := by
  simp only [createDXFStyleTurn, mmToPxR]
  rw [if_neg (turn_no_fallback p1 p2 s hs)]
  dsimp only
  set S := Real.sqrt ((p2.x - p1.x) * (p2.x - p1.x) + (p2.y - p1.y) * (p2.y - p1.y)) with hS
  have hSg : S = distance p1 p2 := rfl
  set rmm := min 50 (distance p1 p2 / s * 1000 / 2) with hrmm
  set rpx := rmm / 1000 * s with hrpx
  have hg0 : 0 ≤ distance p1 p2 := distance_nonneg p1 p2
  have hgdiv : 0 ≤ distance p1 p2 / s * 1000 / 2 := by
    have h1 : 0 ≤ distance p1 p2 / s := div_nonneg hg0 hs.le
    linarith
  have hrmm0 : 0 ≤ rmm := le_min (by norm_num) hgdiv
  have hrpx0 : 0 ≤ rpx := mul_nonneg (div_nonneg hrmm0 (by norm_num)) hs.le
  by_cases hg : distance p1 p2 = 0
  · have hrmmz : rmm = 0 := by
      rw [hrmm, hg]
      norm_num
    have hrpxz : rpx = 0 := by rw [hrpx, hrmmz]; ring
    rw [hrpxz, hrmmz]
    rw [distance_sub_zero _ _ (by ring) (by ring), distance_sub_zero _ _ (by ring) (by ring),
      distance_sub_zero _ _ (by ring) (by ring)]
    ring
  · have hgpos : 0 < distance p1 p2 := lt_of_le_of_ne hg0 (Ne.symm hg)
    have hSpos : 0 < S := by rw [hSg]; exact hgpos
    have hSS : S * S = (p2.x - p1.x) * (p2.x - p1.x) + (p2.y - p1.y) * (p2.y - p1.y) := by
      rw [hS]
      exact Real.mul_self_sqrt
        (by nlinarith [mul_self_nonneg (p2.x - p1.x), mul_self_nonneg (p2.y - p1.y)])
    have hu : (p2.x - p1.x) / S * ((p2.x - p1.x) / S) +
        (p2.y - p1.y) / S * ((p2.y - p1.y) / S) = 1 := by
      field_simp
      linarith [hSS]
    rw [show distance p1
          ⟨p1.x + (p2.x - p1.x) / S * rpx, p1.y + (p2.y - p1.y) / S * rpx⟩ = rpx from
        distance_mul _ _ _ hrpx0 hu _ _ (by ring) (by ring)]
    set tX := (p1.x + p2.x) / 2 + (getSideVector side).x * (d / 1000 * s) with htX
    set tY := (p1.y + p2.y) / 2 + (getSideVector side).y * (d / 1000 * s) with htY
    rw [show distance ⟨tX - (p2.x - p1.x) / S * rpx, tY - (p2.y - p1.y) / S * rpx⟩
          ⟨tX + (p2.x - p1.x) / S * rpx, tY + (p2.y - p1.y) / S * rpx⟩ = 2 * rpx from
        distance_mul _ _ _ (by linarith) hu _ _ (by ring) (by ring)]
    rw [show distance ⟨p2.x - (p2.x - p1.x) / S * rpx, p2.y - (p2.y - p1.y) / S * rpx⟩
          p2 = rpx from
        distance_mul _ _ _ hrpx0 hu _ _ (by ring) (by ring)]
    rw [hrpx]
    field_simp
    ring

/-- The reported length of any single turn at positive scale is nonnegative
and at most `(4 + π) * 50 ≤ 400` millimetres. -/
theorem createDXFStyleTurn_lengthMm_bounds (p1 p2 : Pt ℝ) (d : ℝ) (side : ConnectionSide)
    (o : Orientation) (s : ℝ) (hs : 0 < s) :
    0 ≤ (createDXFStyleTurn p1 p2 d side o s).lengthMm ∧
      (createDXFStyleTurn p1 p2 d side o s).lengthMm ≤ 400 := by
  rw [createDXFStyleTurn_lengthMm p1 p2 d side o s hs]
  have hπ4 : Real.pi ≤ 4 := Real.pi_le_four
  have hπ0 : 0 < Real.pi := Real.pi_pos
  have hgdiv : 0 ≤ distance p1 p2 / s * 1000 / 2 := by
    have h1 : 0 ≤ distance p1 p2 / s := div_nonneg (distance_nonneg p1 p2) hs.le
    linarith
  have h0 : 0 ≤ min 50 (distance p1 p2 / s * 1000 / 2) := le_min (by norm_num) hgdiv
  have h50 : min 50 (distance p1 p2 / s * 1000 / 2) ≤ 50 := min_le_left _ _
  constructor
  · exact mul_nonneg (by linarith) h0
  · nlinarith

/-- Each block's reported length at positive scale is at most 3200mm: at
most eight turns of at most 400mm each (the start block trades one turn for
two 150mm stubs). -/
theorem generatePatternPaths_lengthMm_le (plates : List (HeatPlate ℝ))
    (side : ConnectionSide) (o : Orientation) (s : ℝ) (idx : ℕ) (hs : 0 < s) :
    (generatePatternPaths plates side o s idx).lengthMm ≤ 3200 := by
  have bound : ∀ (a b : Pt ℝ) (d : ℝ) (sd : ConnectionSide),
      (createDXFStyleTurn a b d sd o s).lengthMm ≤ 400 :=
    fun a b d sd => (createDXFStyleTurn_lengthMm_bounds a b d sd o s hs).2
  simp only [generatePatternPaths, STUB_LENGTH_MM]
  split_ifs
  · dsimp only
    refine le_trans ?_ (by norm_num :
      (400 : ℝ) + 400 + 400 + 400 + 150 + 150 + 400 + 400 + 400 ≤ 3200)
    gcongr <;> apply bound
  · dsimp only
    refine le_trans ?_ (by norm_num :
      (400 : ℝ) + 400 + 400 + 400 + 400 + 400 + 400 + 400 ≤ 3200)
    gcongr <;> apply bound

/-- Both branches of the turn builder return a nonempty path. -/
theorem createDXFStyleTurn_pathData_ne_nil (p1 p2 : Pt ℝ) (d : ℝ) (side : ConnectionSide)
    (o : Orientation) (s : ℝ) :
    (createDXFStyleTurn p1 p2 d side o s).pathData ≠ [] := by
  simp only [createDXFStyleTurn]
  split_ifs <;> simp

/-- A block path always contains at least its first turn-side turn. -/
theorem generatePatternPaths_pathData_ne_nil (plates : List (HeatPlate ℝ))
    (side : ConnectionSide) (o : Orientation) (s : ℝ) (idx : ℕ) :
    (generatePatternPaths plates side o s idx).pathData ≠ [] := by
  simp only [generatePatternPaths]
  split_ifs <;> dsimp only <;>
    simp [List.append_eq_nil, createDXFStyleTurn_pathData_ne_nil]

/-- One routing step preserves the circuit-length invariant: all finalized
circuits are within the budget, an empty running circuit has length 0, and
the running length is within the budget. -/
theorem routeStep_preserves_max (side : ConnectionSide) (o : Orientation) (s : ℝ)
    (st : RouteState) (ib : ℕ × List (HeatPlate ℝ)) (hs : 0 < s)
    (h1 : ∀ cc ∈ st.circuits, cc.length ≤ MAX_CIRCUIT_LENGTH_MM)
    (h2 : st.currentPathParts = [] → st.currentLengthMm = 0)
    (h3 : st.currentLengthMm ≤ MAX_CIRCUIT_LENGTH_MM) :
    (∀ cc ∈ (routeStep side o s st ib).circuits, cc.length ≤ MAX_CIRCUIT_LENGTH_MM) ∧
      ((routeStep side o s st ib).currentPathParts = [] →
        (routeStep side o s st ib).currentLengthMm = 0) ∧
      (routeStep side o s st ib).currentLengthMm ≤ MAX_CIRCUIT_LENGTH_MM := by
  have hb := generatePatternPaths_lengthMm_le ib.2 side o s ib.1 hs
  by_cases he : (generatePatternPaths ib.2 side o s ib.1).pathData.isEmpty = true
  · have heq : routeStep side o s st ib = st := by
      simp only [routeStep]
      rw [if_pos he]
    rw [heq]
    exact ⟨h1, h2, h3⟩
  · by_cases hp : st.currentPathParts.isEmpty = true
    · have heq : routeStep side o s st ib =
          { st with
              currentPathParts := st.currentPathParts ++
                [(generatePatternPaths ib.2 side o s ib.1).pathData]
              currentLengthMm := st.currentLengthMm +
                (generatePatternPaths ib.2 side o s ib.1).lengthMm } := by
        simp only [routeStep]
        rw [if_neg he, if_pos hp]
      have hnil : st.currentPathParts = [] := by rwa [List.isEmpty_iff] at hp
      rw [heq]
      dsimp only
      refine ⟨h1, ?_, ?_⟩
      · intro hcontra
        simp at hcontra
      · rw [h2 hnil]
        unfold MAX_CIRCUIT_LENGTH_MM
        linarith
    · by_cases hl : st.currentLengthMm +
          (generatePatternPaths ib.2 side o s ib.1).lengthMm ≤ MAX_CIRCUIT_LENGTH_MM
      · have heq : routeStep side o s st ib =
            { st with
                currentPathParts := st.currentPathParts ++
                  [(generatePatternPaths ib.2 side o s ib.1).pathData]
                currentLengthMm := st.currentLengthMm +
                  (generatePatternPaths ib.2 side o s ib.1).lengthMm } := by
          simp only [routeStep]
          rw [if_neg he, if_neg hp, if_pos hl]
        rw [heq]
        dsimp only
        refine ⟨h1, ?_, hl⟩
        intro hcontra
        simp at hcontra
      · have heq : routeStep side o s st ib =
            { circuits := st.circuits ++
                [{ id := "circuit-" ++ toString st.circuits.length
                   color := CIRCUIT_COLORS.getD (st.circuits.length % CIRCUIT_COLORS.length) ""
                   pathData := st.currentPathParts.flatten
                   length := st.currentLengthMm }]
              currentPathParts := [(generatePatternPaths ib.2 side o s ib.1).pathData]
              currentLengthMm := (generatePatternPaths ib.2 side o s ib.1).lengthMm } := by
          simp only [routeStep]
          rw [if_neg he, if_neg hp, if_neg hl]
        rw [heq]
        dsimp only
        refine ⟨?_, ?_, ?_⟩
        · intro cc hcc
          rcases List.mem_append.mp hcc with hmem | hmem
          · exact h1 cc hmem
          · rw [List.mem_singleton.mp hmem]
            exact h3
        · intro hcontra
          simp at hcontra
        · unfold MAX_CIRCUIT_LENGTH_MM
          linarith

/-- The circuit-length invariant is preserved by the whole block fold. -/
theorem foldl_routeStep_max (side : ConnectionSide) (o : Orientation) (s : ℝ) (hs : 0 < s)
    (l : List (ℕ × List (HeatPlate ℝ))) (st : RouteState)
    (h1 : ∀ cc ∈ st.circuits, cc.length ≤ MAX_CIRCUIT_LENGTH_MM)
    (h2 : st.currentPathParts = [] → st.currentLengthMm = 0)
    (h3 : st.currentLengthMm ≤ MAX_CIRCUIT_LENGTH_MM) :
    (∀ cc ∈ (l.foldl (routeStep side o s) st).circuits,
        cc.length ≤ MAX_CIRCUIT_LENGTH_MM) ∧
      ((l.foldl (routeStep side o s) st).currentPathParts = [] →
        (l.foldl (routeStep side o s) st).currentLengthMm = 0) ∧
      (l.foldl (routeStep side o s) st).currentLengthMm ≤ MAX_CIRCUIT_LENGTH_MM := by
  induction l generalizing st with
  | nil => exact ⟨h1, h2, h3⟩
  | cons a t ih =>
    simp only [List.foldl_cons]
    obtain ⟨g1, g2, g3⟩ := routeStep_preserves_max side o s st a hs h1 h2 h3
    exact ih _ g1 g2 g3

/-- **C1.** For every plate list, connection side, orientation and positive
calibration scale, every circuit returned by `calculateCircuits` has total
length at most `MAX_CIRCUIT_LENGTH_MM` (100,000mm).  A new circuit starts
with one block (at most 3200mm of reported length) and blocks are appended
only while the running total stays within the budget. -/
theorem circuits_within_max_length (plates : List (HeatPlate ℝ)) (side : ConnectionSide)
    (o : Orientation) (s : ℝ) (hs : 0 < s) :
    ∀ cc ∈ calculateCircuits plates side o s, cc.length ≤ MAX_CIRCUIT_LENGTH_MM := by
  simp only [calculateCircuits]
  split_ifs with ha hb hc
  · simp
  · simp
  · obtain ⟨g1, g2, g3⟩ := foldl_routeStep_max side o s hs _ ⟨[], [], 0⟩
      (by simp) (fun _ => rfl) (by unfold MAX_CIRCUIT_LENGTH_MM; norm_num)
    exact g1
  · obtain ⟨g1, g2, g3⟩ := foldl_routeStep_max side o s hs _ ⟨[], [], 0⟩
      (by simp) (fun _ => rfl) (by unfold MAX_CIRCUIT_LENGTH_MM; norm_num)
    intro cc hcc
    rcases List.mem_append.mp hcc with hmem | hmem
    · exact g1 cc hmem
    · rw [List.mem_singleton.mp hmem]
      exact g3

/-- Witness for C1 at a concrete block of eight plates and scale 1. -/
theorem circuits_within_max_length_witness :
    (0 : ℝ) < 1 ∧ ∀ cc ∈ calculateCircuits plates8R .bottom .Vertical 1,
      cc.length ≤ MAX_CIRCUIT_LENGTH_MM :=
  ⟨by norm_num, circuits_within_max_length plates8R .bottom .Vertical 1 (by norm_num)⟩

/-- `routeStep` skips a block with an empty path. -/
theorem routeStep_eq_skip (side : ConnectionSide) (o : Orientation) (s : ℝ)
    (st : RouteState) (ib : ℕ × List (HeatPlate ℝ))
    (he : (generatePatternPaths ib.2 side o s ib.1).pathData.isEmpty = true) :
    routeStep side o s st ib = st := by
  simp only [routeStep]
  rw [if_pos he]

/-- `routeStep` appends the block to an empty running circuit. -/
theorem routeStep_eq_push_empty (side : ConnectionSide) (o : Orientation) (s : ℝ)
    (st : RouteState) (ib : ℕ × List (HeatPlate ℝ))
    (he : ¬(generatePatternPaths ib.2 side o s ib.1).pathData.isEmpty = true)
    (hp : st.currentPathParts.isEmpty = true) :
    routeStep side o s st ib =
      { st with
          currentPathParts := st.currentPathParts ++
            [(generatePatternPaths ib.2 side o s ib.1).pathData]
          currentLengthMm := st.currentLengthMm +
            (generatePatternPaths ib.2 side o s ib.1).lengthMm } := by
  simp only [routeStep]
  rw [if_neg he, if_pos hp]

/-- `routeStep` appends the block while the running total stays within the
budget. -/
theorem routeStep_eq_push_within (side : ConnectionSide) (o : Orientation) (s : ℝ)
    (st : RouteState) (ib : ℕ × List (HeatPlate ℝ))
    (he : ¬(generatePatternPaths ib.2 side o s ib.1).pathData.isEmpty = true)
    (hp : ¬st.currentPathParts.isEmpty = true)
    (hl : st.currentLengthMm + (generatePatternPaths ib.2 side o s ib.1).lengthMm ≤
      MAX_CIRCUIT_LENGTH_MM) :
    routeStep side o s st ib =
      { st with
          currentPathParts := st.currentPathParts ++
            [(generatePatternPaths ib.2 side o s ib.1).pathData]
          currentLengthMm := st.currentLengthMm +
            (generatePatternPaths ib.2 side o s ib.1).lengthMm } := by
  simp only [routeStep]
  rw [if_neg he, if_neg hp, if_pos hl]

/-- `routeStep` finalizes the running circuit when the budget would be
exceeded. -/
theorem routeStep_eq_finalize (side : ConnectionSide) (o : Orientation) (s : ℝ)
    (st : RouteState) (ib : ℕ × List (HeatPlate ℝ))
    (he : ¬(generatePatternPaths ib.2 side o s ib.1).pathData.isEmpty = true)
    (hp : ¬st.currentPathParts.isEmpty = true)
    (hl : ¬st.currentLengthMm + (generatePatternPaths ib.2 side o s ib.1).lengthMm ≤
      MAX_CIRCUIT_LENGTH_MM) :
    routeStep side o s st ib =
      { circuits := st.circuits ++
          [{ id := "circuit-" ++ toString st.circuits.length
             color := CIRCUIT_COLORS.getD (st.circuits.length % CIRCUIT_COLORS.length) ""
             pathData := st.currentPathParts.flatten
             length := st.currentLengthMm }]
        currentPathParts := [(generatePatternPaths ib.2 side o s ib.1).pathData]
        currentLengthMm := (generatePatternPaths ib.2 side o s ib.1).lengthMm } := by
  simp only [routeStep]
  rw [if_neg he, if_neg hp, if_neg hl]

/-- Appending one finalized circuit with the palette color indexed by the
current count preserves the color-cycling invariant. -/
theorem colors_invariant_append (l : List HeatingCircuit) (c : HeatingCircuit)
    (h : ∀ k, k < l.length →
      (l.getD k dummyCircuit).color = CIRCUIT_COLORS.getD (k % 6) "")
    (hc : c.color = CIRCUIT_COLORS.getD (l.length % CIRCUIT_COLORS.length) "") :
    ∀ k, k < (l ++ [c]).length →
      ((l ++ [c]).getD k dummyCircuit).color = CIRCUIT_COLORS.getD (k % 6) "" := by
  intro k hk
  rw [List.length_append, List.length_singleton] at hk
  by_cases hklt : k < l.length
  · rw [List.getD_append _ _ _ _ hklt]
    exact h k hklt
  · have hkeq : k = l.length := by omega
    subst hkeq
    rw [List.getD_append_right _ _ _ _ (le_refl _), Nat.sub_self, List.getD_cons_zero]
    rw [hc]
    rfl

/-- One routing step preserves the color-cycling invariant. -/
theorem routeStep_preserves_colors (side : ConnectionSide) (o : Orientation) (s : ℝ)
    (st : RouteState) (ib : ℕ × List (HeatPlate ℝ))
    (h : ∀ k, k < st.circuits.length →
      (st.circuits.getD k dummyCircuit).color = CIRCUIT_COLORS.getD (k % 6) "") :
    ∀ k, k < (routeStep side o s st ib).circuits.length →
      ((routeStep side o s st ib).circuits.getD k dummyCircuit).color =
        CIRCUIT_COLORS.getD (k % 6) "" := by
  by_cases he : (generatePatternPaths ib.2 side o s ib.1).pathData.isEmpty = true
  · rw [routeStep_eq_skip side o s st ib he]
    exact h
  · by_cases hp : st.currentPathParts.isEmpty = true
    · rw [routeStep_eq_push_empty side o s st ib he hp]
      exact h
    · by_cases hl : st.currentLengthMm +
          (generatePatternPaths ib.2 side o s ib.1).lengthMm ≤ MAX_CIRCUIT_LENGTH_MM
      · rw [routeStep_eq_push_within side o s st ib he hp hl]
        exact h
      · rw [routeStep_eq_finalize side o s st ib he hp hl]
        exact colors_invariant_append st.circuits _ h rfl

/-- The color-cycling invariant is preserved by the whole block fold. -/
theorem foldl_routeStep_colors (side : ConnectionSide) (o : Orientation) (s : ℝ)
    (l : List (ℕ × List (HeatPlate ℝ))) (st : RouteState)
    (h : ∀ k, k < st.circuits.length →
      (st.circuits.getD k dummyCircuit).color = CIRCUIT_COLORS.getD (k % 6) "") :
    ∀ k, k < (l.foldl (routeStep side o s) st).circuits.length →
      ((l.foldl (routeStep side o s) st).circuits.getD k dummyCircuit).color =
        CIRCUIT_COLORS.getD (k % 6) "" := by
  induction l generalizing st with
  | nil => exact h
  | cons a t ih =>
    simp only [List.foldl_cons]
    exact ih _ (routeStep_preserves_colors side o s st a h)

/-- **C10.** The i-th finalized circuit (0-based, creation order) receives
the palette color `CIRCUIT_COLORS[i mod 6]`, so colors repeat cyclically
after the fixed 6-entry palette is exhausted. -/
theorem circuit_colors_cycle (plates : List (HeatPlate ℝ)) (side : ConnectionSide)
    (o : Orientation) (s : ℝ) (i : ℕ)
    (h : i < (calculateCircuits plates side o s).length) :
    ((calculateCircuits plates side o s).getD i dummyCircuit).color =
        CIRCUIT_COLORS.getD (i % 6) "" ∧
      CIRCUIT_COLORS.length = 6 := by
  refine ⟨?_, rfl⟩
  simp only [calculateCircuits] at h ⊢
  split_ifs at h ⊢ with ha hb hc
  · simp at h
  · simp at h
  · exact foldl_routeStep_colors side o s _ ⟨[], [], 0⟩ (by intro k hk; simp at hk) i h
  · exact colors_invariant_append _ _
      (foldl_routeStep_colors side o s _ ⟨[], [], 0⟩ (by intro k hk; simp at hk)) rfl i h

/-- Any eight-plate input forms exactly one complete block and yields
exactly one circuit, regardless of the scale. -/
theorem calculateCircuits_length_eight (plates : List (HeatPlate ℝ))
    (side : ConnectionSide) (o : Orientation) (s : ℝ) (h8 : plates.length = 8) :
    (calculateCircuits plates side o s).length = 1 := by
  have hne : ¬plates.isEmpty = true := by
    rw [List.isEmpty_iff]
    intro e
    rw [e] at h8
    simp at h8
  have hslen : (sortPlates plates o).length = 8 := by
    unfold sortPlates
    split_ifs <;> simp [List.length_insertionSort, h8]
  have hnil : chunkPlates ([] : List (HeatPlate ℝ)) = [] := by
    rw [chunkPlates]
    rw [dif_pos rfl]
  have hchunk : chunkPlates (sortPlates plates o) = [sortPlates plates o] := by
    rw [chunkPlates]
    rw [dif_neg (by intro e; rw [e] at hslen; simp at hslen)]
    rw [List.take_of_length_le (by omega), List.drop_eq_nil_of_le (by omega), hnil]
  have hfil : (chunkPlates (sortPlates plates o)).filter (fun block => block.length = 8) =
      [sortPlates plates o] := by
    rw [hchunk]
    simp [hslen]
  simp only [calculateCircuits]
  rw [if_neg hne, hfil]
  rw [if_neg (by simp)]
  rw [show ([sortPlates plates o] : List (List (HeatPlate ℝ))).enum =
    [(0, sortPlates plates o)] from rfl]
  simp only [List.foldl_cons, List.foldl_nil]
  have hbp : ¬(generatePatternPaths (0, sortPlates plates o).2 side o s
      (0, sortPlates plates o).1).pathData.isEmpty = true := by
    rw [List.isEmpty_iff]
    exact generatePatternPaths_pathData_ne_nil _ side o s _
  rw [routeStep_eq_push_empty side o s ⟨[], [], 0⟩ (0, sortPlates plates o) hbp rfl]
  simp

/-- Witness for C10: a concrete eight-plate input yields a first circuit
carrying palette color 0. -/
theorem circuit_colors_cycle_witness :
    0 < (calculateCircuits plates8R .bottom .Vertical 1).length ∧
      ((calculateCircuits plates8R .bottom .Vertical 1).getD 0 dummyCircuit).color =
        CIRCUIT_COLORS.getD (0 % 6) "" := by
  have hlen := calculateCircuits_length_eight plates8R .bottom .Vertical 1 rfl
  have h0 : 0 < (calculateCircuits plates8R .bottom .Vertical 1).length := by omega
  exact ⟨h0, (circuit_colors_cycle plates8R .bottom .Vertical 1 0 h0).1⟩

/-- **C7 (counterexample).** Running the router with the non-positive
calibration scale `-1000` does not fail and still produces a circuit: the
engine has no distinct "uncalibrated" error state. -/
theorem nonpositive_scale_still_produces_circuits :
    (calculateCircuits plates8R .bottom .Vertical (-1000)).length = 1 :=
  calculateCircuits_length_eight plates8R .bottom .Vertical (-1000) rfl

/-- For a positive scale the turn builder's output always contains an arc
command (the arc branch is always taken). -/
theorem createDXFStyleTurn_hasArc (p1 p2 : Pt ℝ) (d : ℝ) (side : ConnectionSide)
    (o : Orientation) (s : ℝ) (hs : 0 < s) :
    hasArc (createDXFStyleTurn p1 p2 d side o s).pathData = true := by
  simp only [createDXFStyleTurn, mmToPxR]
  rw [if_neg (turn_no_fallback p1 p2 s hs)]
  simp [hasArc]

/-- **C3 (counterexample).** At endpoints 40mm apart with configured radius
50mm (scale 1000 px/m, so 1px = 1mm) the turn builder does not degrade to a
straight 40mm connector: its reported length is not 40mm and its path is
arc-based.  The shrunk radius `min(50, 40/2) = 20` makes the fallback test
`40 < 2*20` false. -/
theorem turn_gap40_not_straight_fallback :
    (createDXFStyleTurn ⟨0, 0⟩ ⟨40, 0⟩ 150 .top .Vertical 1000).lengthMm ≠ 40 ∧
      hasArc (createDXFStyleTurn ⟨0, 0⟩ ⟨40, 0⟩ 150 .top .Vertical 1000).pathData = true := by
  have hd : distance ⟨0, 0⟩ ⟨40, 0⟩ = 40 :=
    distance_mul 1 0 40 (by norm_num) (by norm_num) _ _ (by norm_num) (by norm_num)
  constructor
  · rw [createDXFStyleTurn_lengthMm _ _ _ _ _ _ (by norm_num), hd]
    rw [show (40 : ℝ) / 1000 * 1000 / 2 = 20 by norm_num]
    rw [show min (50 : ℝ) 20 = 20 by norm_num [min_def]]
    intro hcontra
    nlinarith [Real.pi_pos]
  · exact createDXFStyleTurn_hasArc _ _ _ _ _ _ (by norm_num)

/-- **C3 (amended).** At endpoints 40mm apart with configured radius 50mm
the effective radius shrinks to `gap/2 = 20mm`, the fallback does not
trigger (`40 < 2*20` is false), and the returned turn is arc-based with
reported length `(4 + π) * 20 ≈ 142.8mm`. -/
theorem turn_gap40_arc_length :
    (createDXFStyleTurn ⟨0, 0⟩ ⟨40, 0⟩ 150 .top .Vertical 1000).lengthMm =
        (4 + Real.pi) * 20 ∧
      hasArc (createDXFStyleTurn ⟨0, 0⟩ ⟨40, 0⟩ 150 .top .Vertical 1000).pathData = true := by
  have hd : distance ⟨0, 0⟩ ⟨40, 0⟩ = 40 :=
    distance_mul 1 0 40 (by norm_num) (by norm_num) _ _ (by norm_num) (by norm_num)
  constructor
  · rw [createDXFStyleTurn_lengthMm _ _ _ _ _ _ (by norm_num), hd]
    rw [show (40 : ℝ) / 1000 * 1000 / 2 = 20 by norm_num]
    rw [show min (50 : ℝ) 20 = 20 by norm_num [min_def]]
  · exact createDXFStyleTurn_hasArc _ _ _ _ _ _ (by norm_num)

/-- **C4 (counterexample).** At endpoints 400mm apart (scale 1000 px/m) the
builder returns an arc-based turn whose reported length
`(4 + π) * 50 ≈ 357mm` is strictly below the 400mm Euclidean distance
between the endpoints. -/
theorem arc_turn_shorter_than_distance :
    hasArc (createDXFStyleTurn ⟨0, 0⟩ ⟨400, 0⟩ 150 .top .Vertical 1000).pathData = true ∧
      (createDXFStyleTurn ⟨0, 0⟩ ⟨400, 0⟩ 150 .top .Vertical 1000).lengthMm <
        distance ⟨0, 0⟩ ⟨400, 0⟩ / 1000 * 1000 := by
  have hd : distance ⟨0, 0⟩ ⟨400, 0⟩ = 400 :=
    distance_mul 1 0 400 (by norm_num) (by norm_num) _ _ (by norm_num) (by norm_num)
  refine ⟨createDXFStyleTurn_hasArc _ _ _ _ _ _ (by norm_num), ?_⟩
  rw [createDXFStyleTurn_lengthMm _ _ _ _ _ _ (by norm_num), hd]
  rw [show (400 : ℝ) / 1000 * 1000 / 2 = 200 by norm_num]
  rw [show min (50 : ℝ) 200 = 50 by norm_num [min_def]]
  nlinarith [Real.pi_lt_315]

/-- **C4 (amended).** For every pair of endpoints and positive scale the
straight fallback never fires (the shrunk radius satisfies
`2 * radiusPx ≤ span`, so a fallback, when taken, would report exactly the
span, i.e. the Euclidean distance); the returned turn is arc-based with
reported length `(4 + π) * min(50, gapMm/2)`, which is not in general above
the Euclidean distance. -/
theorem turn_reported_length_amended (p1 p2 : Pt ℝ) (d : ℝ) (side : ConnectionSide)
    (o : Orientation) (s : ℝ) (hs : 0 < s) :
    ¬(Real.sqrt ((p2.x - p1.x) * (p2.x - p1.x) + (p2.y - p1.y) * (p2.y - p1.y)) <
        min 50 (distance p1 p2 / s * 1000 / 2) / 1000 * s * 2) ∧
      (createDXFStyleTurn p1 p2 d side o s).lengthMm =
        (4 + Real.pi) * min 50 (distance p1 p2 / s * 1000 / 2) :=
  ⟨turn_no_fallback p1 p2 s hs, createDXFStyleTurn_lengthMm p1 p2 d side o s hs⟩

/-- Witness for the amended C4 at endpoints 400mm apart and scale 1000. -/
theorem turn_reported_length_amended_witness :
    (0 : ℝ) < 1000 ∧
      (createDXFStyleTurn ⟨0, 0⟩ ⟨400, 0⟩ 150 .top .Vertical 1000).lengthMm =
        (4 + Real.pi) * min 50 (distance ⟨0, 0⟩ ⟨400, 0⟩ / 1000 * 1000 / 2) :=
  ⟨by norm_num,
    (turn_reported_length_amended ⟨0, 0⟩ ⟨400, 0⟩ 150 .top .Vertical 1000 (by norm_num)).2⟩

end Heatworks
